import Mathlib

/-!
# Verification of the host-installer core (Task sequencer and partition planner)

Shallow embedding of the core of `backend.py`:

* the Partition Layout Planner (`partitionTargetDisk`),
* the Task / answer-context machinery (`Task`, the `A` late binder,
  `Task.execute`),
* the Sequence Executor (`executeSequence` with its `doCleanup` unwind),
* the Partition Table Committer (`writeDom0DiskPartitions`).

Python dictionaries are modelled as association lists, Python exceptions as
`Except`, and the side effects of the committer as an explicit trace of disk
operations.  The `disktools`, `constants` and `diskutil` modules are external
to the sources at hand; the small parts of them the core touches
(`PartitionTool` lookups, partition-size constants, disk probing) are modelled
from the spec as plain data supplied by the caller.
-/

set_option autoImplicit false

namespace HostInstaller

/-- GPT/DOS partition type ids, as used by `disktools.PartitionTool`
(`ID_EFI_BOOT`, `ID_LINUX`, ...).  Only equality on them matters here. -/
inductive PartId where
  | efiBoot
  | linux
  | linuxSwap
  | linuxLVM
  | other (code : Nat)
  deriving DecidableEq, Repr

/-- Partition table types (`constants.PARTITION_DOS` / `constants.PARTITION_GPT`). -/
inductive TableType where
  | dos
  | gpt
  deriving DecidableEq, Repr

/-- One record of an on-disk partition table, as returned by
`PartitionTool.getPartition`: a Python dict that may or may not carry an
`id` entry. -/
structure Partition where
  id : Option PartId
  deriving DecidableEq, Repr

/-- Modelled from the spec: `disktools.PartitionTool` is not among the given
sources; the planner only uses it as a read-only probe of the current table
(table type, partition records by number, utility-partition detection), so it
is modelled as that probe data.  `utilityParts` is the result of
`PartitionTool.utilityPartitions()`: the numbers of the utility partitions. -/
structure PartitionTool where
  partTableType : TableType
  partitions : List (Int × Partition)
  utilityParts : List Int
  deriving Repr

/-- `PartitionTool.getPartition(number)`: the partition record at that number,
or `None`. -/
def PartitionTool.getPartition (tool : PartitionTool) (number : Int) : Option Partition :=
  (tool.partitions.find? (fun p => p.1 = number)).map (·.2)

/-- Modelled from the spec: the existing-installation object handed to the
upgrade branch.  `rootNum` is `tool.partitionNumber(existing.root_device)`;
`bootNum` is `tool.partitionNumber(existing.boot_device)` when
`existing.boot_device` is set, and `none` otherwise. -/
structure ExistingInstallation where
  tool : PartitionTool
  rootNum : Int
  bootNum : Option Int

/-- `constants.PRESERVE_IF_UTILITY`. -/
def PRESERVE_IF_UTILITY : String := "if-utility"

/-- The planner's 6-tuple of partition numbers:
(primary/root, backup, storage, boot, logs, swap). -/
abbrev PartPlan := Int × Int × Int × Int × Int × Int

/-- `backend.partitionTargetDisk(disk, existing, preserve_first_partition,
create_sr_part)`: decides the partition numbering for install or upgrade.
Raised `RuntimeError`s become `Except.error`; in the upgrade branch, reading
`'id' not in boot_part` off a `None` record is the Python `TypeError`. -/
def partitionTargetDisk (disk : PartitionTool) (existing : Option ExistingInstallation)
    (preserve_first_partition : String) (create_sr_part : Bool) :
    Except String PartPlan :=
  match existing with
  | some ex =>
    -- upgrade, use existing partitioning scheme
    let tool := ex.tool
    let primary_part := ex.rootNum
    let bootRes : Except String Int :=
      match ex.bootNum with
      | some bn =>
        match tool.getPartition bn with
        | none => .error "TypeError: argument of type NoneType is not iterable"
        | some boot_part =>
          if boot_part.id ≠ some PartId.efiBoot then
            .error "Boot partition is not set up for UEFI mode or missing EFI partition ID."
          else
            .ok bn
      | none => .ok (primary_part + 3)
    bootRes.bind fun boot_partnum =>
      match tool.getPartition (primary_part + 2) with
      | some _ =>
        .ok (primary_part, primary_part + 1, primary_part + 2, boot_partnum,
             primary_part + 4, primary_part + 5)
      | none =>
        .ok (primary_part, primary_part + 1, 0, boot_partnum,
             primary_part + 4, primary_part + 5)
  | none =>
    let tool := disk
    -- Cannot preserve partition for legacy DOS partition table.
    if tool.partTableType = TableType.dos ∧
        (preserve_first_partition = "true" ∨
          (preserve_first_partition = PRESERVE_IF_UTILITY ∧ tool.utilityParts ≠ [])) then
      .error "Preserving initial partition on DOS unsupported"
    else
      -- Preserve any utility partitions unless user told us to zap 'em
      let primaryRes : Except String Int :=
        if preserve_first_partition = "true" then
          match tool.getPartition 1 with
          | none => .error "No first partition to preserve"
          | some _ => .ok 2
        else if preserve_first_partition = PRESERVE_IF_UTILITY then
          let primary_part := 1 + tool.utilityParts.foldl max 0
          if primary_part > 2 then
            .error "Installer only supports a single Utility Partition at partition 1"
          else
            .ok primary_part
        else
          .ok 1
      primaryRes.bind fun primary_part =>
        let sr_part : Int := if create_sr_part then primary_part + 2 else -1
        let boot_part : Int := max (primary_part + 1) sr_part + 1
        .ok (primary_part, primary_part + 1, sr_part, boot_part,
             primary_part + 4, primary_part + 5)

/-- A GPT disk with no partitions and no utility partitions, for concrete runs. -/
def emptyGptTool : PartitionTool :=
  { partTableType := TableType.gpt, partitions := [], utilityParts := [] }

/-! ## Task / answer-context machinery -/

/-- Python exceptions as raised by the task machinery. -/
inductive PyErr where
  | indexError
  | typeError
  | runtimeError (msg : String)
  deriving DecidableEq, Repr

/-- One entry of the `answers['cleanup']` list: a `(tag, function, args)`
triple.  The call `f(*a)` either succeeds or raises; only that outcome and the
tag matter here, so the closure is modelled by its `fails` outcome. -/
structure CleanupAction where
  tag : String
  fails : Bool
  deriving DecidableEq, Repr

/-- Values stored in the answers dictionary. -/
inductive Value where
  | none_
  | str (s : String)
  | num (n : Int)
  | cleanups (acts : List CleanupAction)
  deriving DecidableEq, Repr

/-- The raw result of a task function: either a single value or a tuple
(`if type(rv) is not tuple: rv = (rv,)`). -/
inductive RawResult where
  | single (v : Value)
  | tup (vs : List Value)
  deriving DecidableEq, Repr

/-- The tuple-normalisation step of `Task.execute`. -/
def RawResult.detuple : RawResult → List Value
  | .single v => [v]
  | .tup vs => vs

/-- The answers dictionary: a Python dict from string keys to values,
modelled as an association list in insertion order. -/
abbrev Answers := List (String × Value)

/-- `answers[k]` lookup (`None`-free: absence is `none`). -/
def lookupA (a : Answers) (k : String) : Option Value :=
  (a.find? (fun e => e.1 = k)).map (·.2)

/-- `answers[k] = v`: update in place, or append a new key. -/
def setK : Answers → String → Value → Answers
  | [], k, v => [(k, v)]
  | e :: rest, k, v => if e.1 = k then (k, v) :: rest else e :: setK rest k v

/-- `del answers[k]`. -/
def delK (a : Answers) (k : String) : Answers :=
  a.filter (fun e => e.1 ≠ k)

/-- The `returns` field of a `Task`: a static list of labels, or a function of
the resolved arguments producing the labels. -/
inductive TaskReturns where
  | static (ks : List String)
  | derived (f : List Value → List String)

/-- `backend.Task`: an install step.  The `args` field is the binder function
(built by `A` or `As`); `fn` may raise.  Progress-callback insertion,
sensitive-argument redaction and logging have no effect on the produced
state and are omitted. -/
structure Task where
  fn : List Value → Except PyErr RawResult
  args : Answers → List Value
  returns : TaskReturns
  progress_scale : Nat := 1

/-- `A(ans, *params)`: late binding — each label is read from the answers
dictionary at execution time with `a.get(param)`, which yields `None` for an
absent key. -/
def A (params : List String) : Answers → List Value :=
  fun a => params.map (fun p => (lookupA a p).getD Value.none_)

/-- `As(ans, *params)`: early binding — the labels are read from `ans` when
the sequence is built, ignoring the answers passed at execution time. -/
def As (ans : Answers) (params : List String) : Answers → List Value :=
  fun _ => params.map (fun p => (lookupA ans p).getD Value.none_)

/-- The output-assembly loop of `Task.execute`:
`for r in range(len(ret)): myrv[ret[r]] = rv[r]`.  Reading `rv[r]` past the
end of the raw result raises `IndexError`; extra raw values are never read. -/
def zipReturns : List String → List Value → Except PyErr (List (String × Value))
  | [], _ => .ok []
  | _ :: _, [] => .error .indexError
  | k :: ks, v :: vs => (zipReturns ks vs).map (fun rest => (k, v) :: rest)

/-- `Task.execute(answers, ...)`: bind the arguments, invoke the function,
normalise the result to a tuple, resolve the output labels, and zip values to
labels.  The caller merges the returned mapping; `execute` itself does not. -/
def Task.execute (t : Task) (answers : Answers) :
    Except PyErr (List (String × Value)) :=
  let args := t.args answers
  match t.fn args with
  | .error e => .error e
  | .ok rv =>
    let ret :=
      match t.returns with
      | .static ks => ks
      | .derived f => f args
    zipReturns ret rv.detuple

/-! ## Sequence executor -/

/-- Observable events of the cleanup unwind. -/
inductive LogEvent where
  | invoked (tag : String)
  | cleanupFailed (tag : String)
  deriving DecidableEq, Repr

/-- The tag of an invocation event (log-failure events carry none). -/
def LogEvent.invokedTag : LogEvent → Option String
  | .invoked t => some t
  | .cleanupFailed _ => none

/-- `executeSequence.doCleanup(actions)`: invoke each action in the order of
the list; an exception from an action is logged and the loop continues.  The
result is the event trace of the loop. -/
def doCleanup : List CleanupAction → List LogEvent
  | [] => []
  | c :: rest =>
    (LogEvent.invoked c.tag ::
      if c.fails then [LogEvent.cleanupFailed c.tag] else []) ++ doCleanup rest

/-- The cleanup list currently registered in the answers dictionary. -/
def getCleanups (a : Answers) : List CleanupAction :=
  match lookupA a "cleanup" with
  | some (Value.cleanups l) => l
  | _ => []

/-- The per-task merge `answers[state_item] = updated_state[state_item]`
applied over the task's returned mapping. -/
def mergeOutputs (a : Answers) (out : List (String × Value)) : Answers :=
  out.foldl (fun acc e => setK acc e.1 e.2) a

/-- The task loop of `executeSequence`: run the tasks in order, merging each
successful task's outputs into the answers; stop at the first exception,
returning the answers as they were when it was raised. -/
def runTasks : List Task → Answers → Answers × Option PyErr
  | [], a => (a, none)
  | t :: ts, a =>
    match t.execute a with
    | .error e => (a, some e)
    | .ok out => runTasks ts (mergeOutputs a out)

/-- What a call to `executeSequence` leaves behind: the answers dictionary,
the cleanup-unwind trace, and the exception propagated to the caller (if
any). -/
structure ExecResult where
  answers : Answers
  trace : List LogEvent
  raised : Option PyErr
  deriving Repr

/-- The first two statements of `executeSequence`:
`answers['cleanup'] = []` and `answers['ui'] = ui`. -/
def seqInit (answers : Answers) (ui : Value) : Answers :=
  setK (setK answers "cleanup" (Value.cleanups [])) "ui" ui

/-- `backend.executeSequence(sequence, seq_name, answers, ui, cleanup)`.
`reduce` over the progress scales of an empty sequence raises `TypeError`
before the task loop starts; otherwise the tasks run in order, an exception
triggers `doCleanup` on the registered list and is re-raised, and on success
the cleanup list is unwound and deleted only when `cleanup` is set. -/
def executeSequence (sequence : List Task) (seq_name : String) (answers : Answers)
    (ui : Value) (cleanup : Bool) : ExecResult :=
  let a0 := seqInit answers ui
  match sequence with
  | [] => { answers := a0, trace := [], raised := some PyErr.typeError }
  | _ :: _ =>
    match runTasks sequence a0 with
    | (a, some e) =>
      { answers := a, trace := doCleanup (getCleanups a), raised := some e }
    | (a, none) =>
      if cleanup then
        { answers := delK a "cleanup", trace := doCleanup (getCleanups a),
          raised := none }
      else
        { answers := a, trace := [], raised := none }

/-! Concrete tasks for counterexamples and witnesses. -/

/-- A task in the style of `mountVolumes`: it reads the cleanup list and
returns it extended with one action (registration happens through the
caller's merge of the `'cleanup'` output). -/
def regCleanupTask (tag : String) : Task :=
  { fn := fun vs =>
      match vs with
      | [Value.cleanups l] => .ok (.single (Value.cleanups (l ++ [{ tag := tag, fails := false }])))
      | _ => .error .typeError,
    args := A ["cleanup"],
    returns := .static ["cleanup"] }

/-- A task whose function raises. -/
def failingTask : Task :=
  { fn := fun _ => .error (.runtimeError "boom"),
    args := A [],
    returns := .static [] }

/-- A task returning a 2-tuple but declaring a single output label. -/
def twoValueTask : Task :=
  { fn := fun _ => .ok (.tup [Value.num 1, Value.num 2]),
    args := A [],
    returns := .static ["a"] }

/-- A task that echoes its (late-bound) argument into its output. -/
def echoArgTask : Task :=
  { fn := fun vs => .ok (.single (vs.headD Value.none_)),
    args := A ["missing-key"],
    returns := .static ["echo"] }

/-- A task with no inputs producing one output value. -/
def outTask : Task :=
  { fn := fun _ => .ok (.single (Value.num 7)),
    args := A [],
    returns := .static ["x"] }

/-! ## Partition table committer -/

/-- Sizes and thresholds read from the `constants` module (MiB for the
partition sizes, GB for the minimum disk size); the module is external to the
sources at hand, so the values are parameters. -/
structure SizePolicy where
  logs_size : Nat
  backup_size : Nat
  root_size : Nat
  boot_size : Nat
  swap_size : Nat
  min_primary_disk_size : Nat

/-- Partition labels from `constants` (exact strings immaterial here). -/
def logspart_label : String := "logs"

/-- Partition label of the backup partition. -/
def backuppart_label : String := "backup"

/-- Partition label of the root (dom0) partition. -/
def rootpart_label : String := "root"

/-- Partition label of the EFI boot partition. -/
def bootpart_label : String := "boot"

/-- Partition label of the swap partition. -/
def swappart_label : String := "swap"

/-- Partition label of the storage (SR) partition. -/
def storagepart_label : String := "storage"

/-- Modelled from the spec: the disk-probe data `writeDom0DiskPartitions`
reads — device-node name (as its characters, so the `disk[:5] == '/dev/'`
assertion is a list prefix check), existence, total size, and the current
partition table contents (`PartitionTool(disk, GPT).items()`, in table
order). -/
structure DiskState where
  name : List Char
  present : Bool
  sizeBytes : Nat
  partitions : List (Int × Partition)

/-- One operation applied to the in-memory partition table before the final
commit.  `create` records the arguments of `PartitionTool.createPartition`:
a `sizeBytes` of `none` means "extend to the end of the disk", a
`startBytes` of `none` means "directly after the previously created
partition". -/
inductive DiskOp where
  | delete (number : Int)
  | create (id : PartId) (sizeBytes : Option Nat) (number : Int)
      (startBytes : Option Nat) (label : String)
  | commit
  deriving DecidableEq, Repr

/-- The in-memory record `disktools` keeps for a created partition.
Modelled from the spec: `disktools` is external; a created partition gets an
explicit start (or the running cursor) and an explicit size (or the space to
the disk's end). -/
structure CreatedPart where
  id : PartId
  start : Nat
  size : Nat
  active : Bool
  label : String
  deriving DecidableEq, Repr

/-- The committer's working state: the partitions created so far, the byte
cursor where the next unplaced partition starts, and the operations emitted
so far. -/
structure CommitState where
  created : List (Int × CreatedPart)
  cursor : Nat
  ops : List DiskOp

/-- `PartitionTool.createPartition(id, sizeBytes, number, startBytes, ...,
label)` on the in-memory table (placement modelled from the spec, see
`CreatedPart`). -/
def createPartition (disk : DiskState) (st : CommitState) (id : PartId)
    (sizeBytes : Option Nat) (number : Int) (startBytes : Option Nat)
    (label : String) : CommitState :=
  let start := startBytes.getD st.cursor
  let size := sizeBytes.getD (disk.sizeBytes - start)
  { created := st.created ++
      [(number, { id := id, start := start, size := size, active := false, label := label })],
    cursor := start + size,
    ops := st.ops ++ [DiskOp.create id sizeBytes number startBytes label] }

/-- Lookup of `tool.partitions[number]` among the created partitions. -/
def lookupCreated (st : CommitState) (number : Int) : Option CreatedPart :=
  (st.created.find? (fun e => e.1 = number)).map (·.2)

/-- The `not sr_at_end` tail of `writeDom0DiskPartitions`: recompute the
start offsets of the root/backup/storage trio so storage comes physically
first, then delete and re-create each of them (in the order primary, backup,
storage) keeping their numbers.  A missing `tool.partitions[...]` entry is
the Python `KeyError`. -/
def reorderOpsFor (st : CommitState)
    (primary_partnum backup_partnum storage_partnum : Int) :
    Except String (List DiskOp) :=
  match lookupCreated st primary_partnum, lookupCreated st storage_partnum with
  | some pri, some sto =>
    let newPri : CreatedPart := { pri with start := pri.start + sto.size }
    let bakRes : Except String (Option CreatedPart) :=
      if backup_partnum > 0 then
        match lookupCreated st backup_partnum with
        | some bak => .ok (some { bak with start := newPri.start + newPri.size })
        | none => .error "KeyError"
      else
        .ok none
    bakRes.map fun bakE =>
      let newSto : CreatedPart := { sto with start := pri.start }
      (if primary_partnum > 0 then
        [DiskOp.delete primary_partnum,
         DiskOp.create newPri.id (some newPri.size) primary_partnum
           (some newPri.start) newPri.label]
      else []) ++
      (match bakE with
       | some bk =>
         [DiskOp.delete backup_partnum,
          DiskOp.create bk.id (some bk.size) backup_partnum (some bk.start) bk.label]
       | none => []) ++
      (if storage_partnum > 0 then
        [DiskOp.delete storage_partnum,
         DiskOp.create newSto.id (some newSto.size) storage_partnum
           (some newSto.start) newSto.label]
      else [])
  | _, _ => .error "KeyError"

/-- The deletion-and-creation body of `writeDom0DiskPartitions`: delete
every existing partition numbered at or above the planned root, then create
the new layout in the physical order logs, backup, root, boot, swap,
storage (only storage without an explicit size, and the logs partition
starting at 1 MiB when no utility partition is preserved). -/
def createDom0Layout (policy : SizePolicy) (disk : DiskState)
    (boot_partnum primary_partnum backup_partnum logs_partnum swap_partnum
      storage_partnum : Int) : CommitState :=
  let deleteOps := disk.partitions.filterMap
    (fun p => if primary_partnum ≤ p.1 then some (DiskOp.delete p.1) else none)
  let st0 : CommitState := { created := [], cursor := 2 ^ 20, ops := deleteOps }
  -- Create logs partition (at 1 MiB when there is no utility partition)
  let st1 :=
    if primary_partnum = 1 then
      createPartition disk st0 .linux (some (policy.logs_size * 2 ^ 20))
        logs_partnum (some (2 ^ 20)) logspart_label
    else
      createPartition disk st0 .linux (some (policy.logs_size * 2 ^ 20))
        logs_partnum none logspart_label
  -- Create backup partition
  let st2 :=
    if backup_partnum > 0 then
      createPartition disk st1 .linux (some (policy.backup_size * 2 ^ 20))
        backup_partnum none backuppart_label
    else st1
  -- Create dom0 partition
  let st3 := createPartition disk st2 .linux (some (policy.root_size * 2 ^ 20))
    primary_partnum none rootpart_label
  -- Create boot partition
  let st4 := createPartition disk st3 .efiBoot (some (policy.boot_size * 2 ^ 20))
    boot_partnum none bootpart_label
  -- Create swap partition
  let st5 := createPartition disk st4 .linuxSwap (some (policy.swap_size * 2 ^ 20))
    swap_partnum none swappart_label
  -- Create LVM (storage) partition, extending to the end of the disk
  if storage_partnum > 0 then
    createPartition disk st5 .linuxLVM none storage_partnum none
      storagepart_label
  else st5

/-- `backend.writeDom0DiskPartitions(disk, boot_partnum, primary_partnum,
backup_partnum, logs_partnum, swap_partnum, storage_partnum, sr_at_end)`:
check the preconditions, apply `createDom0Layout`, optionally reorder the
root/backup/storage trio, and commit.  The result is the trace of table
operations. -/
def writeDom0DiskPartitions (policy : SizePolicy) (disk : DiskState)
    (boot_partnum primary_partnum backup_partnum logs_partnum swap_partnum
      storage_partnum : Int) (sr_at_end : Bool) :
    Except String (List DiskOp) :=
  if disk.name.take 5 = ['/', 'd', 'e', 'v', '/'] then
    if disk.present then
      if disk.sizeBytes / 2 ^ 30 < policy.min_primary_disk_size then
        .error "The disk is smaller than the minimum size."
      else
        let st6 := createDom0Layout policy disk boot_partnum primary_partnum
          backup_partnum logs_partnum swap_partnum storage_partnum
        if sr_at_end then
          .ok (st6.ops ++ [DiskOp.commit])
        else
          (reorderOpsFor st6 primary_partnum backup_partnum storage_partnum).map
            (fun ro => st6.ops ++ ro ++ [DiskOp.commit])
    else
      .error "The disk could not be found."
  else
    .error "AssertionError"

/-! Concrete instances for counterexamples and witnesses. -/

/-- A concrete upgrade installation: root at 2, EFI boot at 5, no partition
at root+2. -/
def upgradeExample : ExistingInstallation :=
  { tool := { partTableType := TableType.gpt,
              partitions := [(2, { id := some PartId.linux }),
                             (5, { id := some PartId.efiBoot })],
              utilityParts := [] },
    rootNum := 2,
    bootNum := some 5 }

/-- A concrete upgrade installation whose boot partition record lacks the
EFI-boot id. -/
def badBootExample : ExistingInstallation :=
  { tool := { partTableType := TableType.gpt,
              partitions := [(1, { id := some PartId.linux }),
                             (4, { id := some PartId.linux })],
              utilityParts := [] },
    rootNum := 1,
    bootNum := some 4 }

/-- A concrete disk for the committer witness. -/
def witnessDisk : DiskState :=
  { name := ['/', 'd', 'e', 'v', '/', 's', 'd', 'a'], present := true, sizeBytes := 2 ^ 36,
    partitions := [(1, { id := some PartId.linux }),
                   (2, { id := some PartId.linux })] }

/-- A concrete size policy for the committer witness. -/
def witnessPolicy : SizePolicy :=
  { logs_size := 4, backup_size := 8, root_size := 16, boot_size := 1,
    swap_size := 2, min_primary_disk_size := 40 }

/-! ## Helper lemmas -/

theorem lookupA_setK_self (a : Answers) (k : String) (v : Value) :
    lookupA (setK a k v) k = some v := by
  induction a with
  | nil => simp [setK, lookupA, List.find?]
  | cons e rest ih =>
    by_cases h : e.1 = k
    · simp [setK, h, lookupA, List.find?]
    · simp only [setK, h, if_false]
      simpa [lookupA, List.find?, h] using ih

theorem lookupA_setK_ne (a : Answers) (k k' : String) (v : Value) (h : k' ≠ k) :
    lookupA (setK a k' v) k = lookupA a k := by
  induction a with
  | nil => simp [setK, lookupA, List.find?, h]
  | cons e rest ih =>
    by_cases he : e.1 = k'
    · simp [setK, he, lookupA, List.find?, h, he ▸ h]
    · simp only [setK, he, if_false]
      by_cases hk : e.1 = k
      · simp [lookupA, List.find?, hk]
      · simpa [lookupA, List.find?, hk] using ih

theorem getCleanups_seqInit (answers : Answers) (ui : Value) :
    getCleanups (seqInit answers ui) = [] := by
  unfold getCleanups seqInit
  rw [lookupA_setK_ne _ _ _ _ (by decide), lookupA_setK_self]

theorem doCleanup_invoked_tags (acts : List CleanupAction) :
    (doCleanup acts).filterMap LogEvent.invokedTag = acts.map CleanupAction.tag := by
  induction acts with
  | nil => rfl
  | cons c rest ih =>
    cases hf : c.fails <;>
      simp [doCleanup, hf, List.filterMap_cons, LogEvent.invokedTag, ih]

theorem runTasks_append (xs ys : List Task) (a : Answers) :
    runTasks (xs ++ ys) a =
      match runTasks xs a with
      | (a', none) => runTasks ys a'
      | (a', some e) => (a', some e) := by
  induction xs generalizing a with
  | nil => simp [runTasks]
  | cons x xs ih =>
    simp only [List.cons_append, runTasks]
    cases x.execute a with
    | error e => rfl
    | ok out => exact ih _

theorem zipReturns_ok_of_le (ret : List String) (vs : List Value)
    (h : ret.length ≤ vs.length) :
    zipReturns ret vs = .ok (ret.zip vs) := by
  induction ret generalizing vs with
  | nil => simp [zipReturns]
  | cons k ks ih =>
    cases vs with
    | nil => simp at h
    | cons v vs =>
      simp only [List.length_cons, Nat.add_le_add_iff_right] at h
      simp [zipReturns, ih vs h, List.zip, Except.map]

theorem lookupA_mergeOutputs_not_mem (a : Answers) (out : List (String × Value))
    (k : String) (hk : k ∉ out.map Prod.fst) :
    lookupA (mergeOutputs a out) k = lookupA a k := by
  induction out generalizing a with
  | nil => rfl
  | cons e rest ih =>
    simp only [List.map_cons, List.mem_cons, not_or] at hk
    unfold mergeOutputs at *
    simp only [List.foldl_cons]
    rw [ih (setK a e.1 e.2) hk.2, lookupA_setK_ne _ _ _ _ (fun h => hk.1 h.symm)]

theorem isSome_find?_of_mem {α : Type} (p : α → Bool) (l : List α) (x : α)
    (hx : x ∈ l) (hp : p x = true) : (l.find? p).isSome := by
  induction l with
  | nil => simp at hx
  | cons a t ih =>
    cases hpa : p a with
    | true => simp [List.find?, hpa]
    | false =>
      rcases List.mem_cons.1 hx with rfl | hxt
      · rw [hp] at hpa; cases hpa
      · simpa [List.find?, hpa] using ih hxt

theorem isSome_lookupCreated_of_mem (st : CommitState) (m : Int)
    (c : CreatedPart) (h : (m, c) ∈ st.created) :
    (lookupCreated st m).isSome := by
  unfold lookupCreated
  have hf := isSome_find?_of_mem (fun e => decide (e.1 = m)) st.created (m, c) h (by simp)
  rcases Option.isSome_iff_exists.1 hf with ⟨v, hv⟩
  simp [hv]

theorem isSome_lookupCreated_createPartition_of (disk : DiskState)
    (st : CommitState) (id : PartId) (sz : Option Nat) (n : Int)
    (start : Option Nat) (lbl : String) (m : Int)
    (h : (lookupCreated st m).isSome) :
    (lookupCreated (createPartition disk st id sz n start lbl) m).isSome := by
  unfold lookupCreated at h
  cases hfind : List.find? (fun e => decide (e.1 = m)) st.created with
  | none => rw [hfind] at h; simp at h
  | some v =>
    have hvm : v ∈ st.created := List.mem_of_find?_eq_some hfind
    have hvp : v.1 = m := by simpa using List.find?_some hfind
    have hmem : (m, v.2) ∈ (createPartition disk st id sz n start lbl).created := by
      have hveq : (m, v.2) = v := by
        cases v; cases hvp; rfl
      rw [hveq]
      unfold createPartition
      exact List.mem_append_left _ hvm
    exact isSome_lookupCreated_of_mem _ m v.2 hmem

theorem isSome_lookupCreated_createPartition_self (disk : DiskState)
    (st : CommitState) (id : PartId) (sz : Option Nat) (n : Int)
    (start : Option Nat) (lbl : String) :
    (lookupCreated (createPartition disk st id sz n start lbl) n).isSome := by
  apply isSome_lookupCreated_of_mem (createPartition disk st id sz n start lbl) n
    { id := id, start := start.getD st.cursor,
      size := sz.getD (disk.sizeBytes - start.getD st.cursor),
      active := false, label := lbl }
  unfold createPartition
  exact List.mem_append_right _ (List.mem_singleton.2 rfl)

theorem delete_mem_ite_elim {n : Int} (c : Prop) [Decidable c] (l : List DiskOp)
    (h : DiskOp.delete n ∈ (if c then l else [])) : DiskOp.delete n ∈ l := by
  split at h
  · exact h
  · simp at h

theorem reorderOpsFor_spec (st : CommitState)
    (p b s : Int)
    (hpv : (lookupCreated st p).isSome)
    (hsv : (lookupCreated st s).isSome)
    (hbv : 0 < b → (lookupCreated st b).isSome) :
    ∃ ro, reorderOpsFor st p b s = .ok ro ∧
      ∀ n, DiskOp.delete n ∈ ro → n = p ∨ n = b ∨ n = s := by
  rcases Option.isSome_iff_exists.1 hpv with ⟨pv, hp⟩
  rcases Option.isSome_iff_exists.1 hsv with ⟨sv, hs⟩
  unfold reorderOpsFor
  rw [hp, hs]
  by_cases hb : 0 < b
  · rcases Option.isSome_iff_exists.1 (hbv hb) with ⟨bv, hbe⟩
    simp only [hb, if_true, hbe]
    refine ⟨_, rfl, ?_⟩
    intro n hn
    rcases List.mem_append.1 hn with hn | hC
    · rcases List.mem_append.1 hn with hA | hB
      · have h1 := delete_mem_ite_elim _ _ hA
        simp only [List.mem_cons, List.not_mem_nil, or_false] at h1
        rcases h1 with h1 | h1
        · exact Or.inl (DiskOp.delete.inj h1)
        · exact absurd h1 (by simp)
      · simp only [List.mem_cons, List.not_mem_nil, or_false] at hB
        rcases hB with h1 | h1
        · exact Or.inr (Or.inl (DiskOp.delete.inj h1))
        · exact absurd h1 (by simp)
    · have h1 := delete_mem_ite_elim _ _ hC
      simp only [List.mem_cons, List.not_mem_nil, or_false] at h1
      rcases h1 with h1 | h1
      · exact Or.inr (Or.inr (DiskOp.delete.inj h1))
      · exact absurd h1 (by simp)
  · simp only [hb, if_false]
    refine ⟨_, rfl, ?_⟩
    intro n hn
    rcases List.mem_append.1 hn with hn | hC
    · rcases List.mem_append.1 hn with hA | hB
      · have h1 := delete_mem_ite_elim _ _ hA
        simp only [List.mem_cons, List.not_mem_nil, or_false] at h1
        rcases h1 with h1 | h1
        · exact Or.inl (DiskOp.delete.inj h1)
        · exact absurd h1 (by simp)
      · simp at hB
    · have h1 := delete_mem_ite_elim _ _ hC
      simp only [List.mem_cons, List.not_mem_nil, or_false] at h1
      rcases h1 with h1 | h1
      · exact Or.inr (Or.inr (DiskOp.delete.inj h1))
      · exact absurd h1 (by simp)

/-! ## Claim theorems: the planner -/

/-- C1 counterexample: on a GPT disk with no utility partitions,
`preserve-first-partition='if-utility'` and storage not requested, the
planner returns `(1, 2, -1, 3, 5, 6)` — storage is the sentinel `-1`
(not `0`), logs is `5` and swap is `6` — not the claimed
`(1, 2, 0, 3, 4, 5)`. -/
theorem c1_counterexample :
    partitionTargetDisk emptyGptTool none PRESERVE_IF_UTILITY false =
      .ok (1, 2, -1, 3, 5, 6) ∧
    ((1 : Int), (2 : Int), (-1 : Int), (3 : Int), (5 : Int), (6 : Int)) ≠
      ((1 : Int), (2 : Int), (0 : Int), (3 : Int), (4 : Int), (5 : Int)) :=
  ⟨rfl, by decide⟩

/-- C1 (amended): for a fresh install on a GPT disk with no utility
partitions, `preserve-first-partition='if-utility'` and storage not
requested, the planner returns storage `= -1` (the fresh-branch sentinel for
"absent"; callers test `> 0`), root `= 1`, backup `= 2`, boot `= 3`
(shifted down), while logs and swap stay at root+4 `= 5` and root+5 `= 6`. -/
theorem partitionTargetDisk_fresh_no_storage (tool : PartitionTool)
    (hgpt : tool.partTableType = TableType.gpt)
    (hutil : tool.utilityParts = []) :
    partitionTargetDisk tool none PRESERVE_IF_UTILITY false =
      .ok (1, 2, -1, 3, 5, 6) := by
  unfold partitionTargetDisk
  simp [hgpt, hutil, PRESERVE_IF_UTILITY, Except.bind]

/-- Witness for C1 (amended) at the empty GPT disk. -/
theorem partitionTargetDisk_fresh_no_storage_witness :
    partitionTargetDisk emptyGptTool none PRESERVE_IF_UTILITY false =
      .ok (1, 2, -1, 3, 5, 6) :=
  partitionTargetDisk_fresh_no_storage emptyGptTool rfl rfl

/-- C7: for a fresh install on a GPT disk with no utility partitions,
`preserve-first-partition='if-utility'` and storage requested, the planner
returns exactly `(root=1, backup=2, storage=3, boot=4, logs=5, swap=6)`. -/
theorem partitionTargetDisk_fresh_with_storage (tool : PartitionTool)
    (hgpt : tool.partTableType = TableType.gpt)
    (hutil : tool.utilityParts = []) :
    partitionTargetDisk tool none PRESERVE_IF_UTILITY true =
      .ok (1, 2, 3, 4, 5, 6) := by
  unfold partitionTargetDisk
  simp [hgpt, hutil, PRESERVE_IF_UTILITY, Except.bind]

/-- Witness for C7 at the empty GPT disk. -/
theorem partitionTargetDisk_fresh_with_storage_witness :
    partitionTargetDisk emptyGptTool none PRESERVE_IF_UTILITY true =
      .ok (1, 2, 3, 4, 5, 6) :=
  partitionTargetDisk_fresh_with_storage emptyGptTool rfl rfl

/-- C5: in the upgrade branch the plan is root = the existing root number,
backup = root+1, storage = root+2 when a partition exists at root+2 and 0
otherwise, logs = root+4, swap = root+5; boot is the existing boot
partition's number when a boot device is present (and its record carries the
EFI id), and root+3 when there is no boot device. -/
theorem partitionTargetDisk_upgrade_plan (d : PartitionTool)
    (ex : ExistingInstallation) (pfp : String) (csp : Bool) :
    (∀ bn bp, ex.bootNum = some bn → ex.tool.getPartition bn = some bp →
        bp.id = some PartId.efiBoot →
        partitionTargetDisk d (some ex) pfp csp =
          .ok (ex.rootNum, ex.rootNum + 1,
               if (ex.tool.getPartition (ex.rootNum + 2)).isSome then ex.rootNum + 2 else 0,
               bn, ex.rootNum + 4, ex.rootNum + 5)) ∧
    (ex.bootNum = none →
        partitionTargetDisk d (some ex) pfp csp =
          .ok (ex.rootNum, ex.rootNum + 1,
               if (ex.tool.getPartition (ex.rootNum + 2)).isSome then ex.rootNum + 2 else 0,
               ex.rootNum + 3, ex.rootNum + 4, ex.rootNum + 5)) := by
  constructor
  · intro bn bp hbn hbp hid
    unfold partitionTargetDisk
    dsimp only
    rw [hbn]
    dsimp only
    rw [hbp]
    dsimp only
    simp only [hid, ne_eq, not_true_eq_false, if_false]
    cases h : ex.tool.getPartition (ex.rootNum + 2) <;> simp [h, Except.bind]
  · intro hbn
    unfold partitionTargetDisk
    dsimp only
    rw [hbn]
    simp only [Except.bind]
    cases h : ex.tool.getPartition (ex.rootNum + 2) <;> simp [h]

/-- Witness for C5 at a concrete upgrade layout. -/
theorem partitionTargetDisk_upgrade_plan_witness :
    partitionTargetDisk emptyGptTool (some upgradeExample) "" false =
      .ok (2, 3,
           if (upgradeExample.tool.getPartition (upgradeExample.rootNum + 2)).isSome
             then upgradeExample.rootNum + 2 else 0,
           5, 6, 7) :=
  (partitionTargetDisk_upgrade_plan emptyGptTool upgradeExample "" false).1
    5 { id := some PartId.efiBoot } rfl rfl rfl

/-- C6: in the upgrade branch, a boot device whose partition record lacks the
EFI-boot type id makes the planner raise a fatal error: no plan tuple is
returned. -/
theorem partitionTargetDisk_upgrade_bad_boot_id (d : PartitionTool)
    (ex : ExistingInstallation) (bn : Int) (bp : Partition) (pfp : String) (csp : Bool)
    (hbn : ex.bootNum = some bn)
    (hbp : ex.tool.getPartition bn = some bp)
    (hid : bp.id ≠ some PartId.efiBoot) :
    partitionTargetDisk d (some ex) pfp csp =
      .error "Boot partition is not set up for UEFI mode or missing EFI partition ID." := by
  unfold partitionTargetDisk
  dsimp only
  rw [hbn]
  dsimp only
  rw [hbp]
  dsimp only
  simp [hid, Except.bind]

/-- Witness for C6 at a concrete mis-typed boot partition. -/
theorem partitionTargetDisk_upgrade_bad_boot_id_witness :
    partitionTargetDisk emptyGptTool (some badBootExample) "" true =
      .error "Boot partition is not set up for UEFI mode or missing EFI partition ID." :=
  partitionTargetDisk_upgrade_bad_boot_id emptyGptTool badBootExample 4
    { id := some PartId.linux } "" true rfl rfl (by decide)

/-! ## Claim theorems: task execution -/

/-- C3 counterexample: `twoValueTask`'s function returns two values but the
task declares a single output label; `Task.execute` succeeds and returns the
partial mapping `[("a", 1)]`, silently dropping the second value instead of
failing with an assertion. -/
theorem c3_counterexample :
    Task.execute twoValueTask [] = .ok [("a", Value.num 1)] ∧
    (Task.execute twoValueTask []).isOk = true :=
  ⟨rfl, rfl⟩

/-- C3 (amended): when the task's function produces at least as many raw
values as there are output labels, `Task.execute` succeeds with the labels
zipped against a prefix of the values — extra values are silently dropped and
no assertion or error is raised; only a shortfall of values (more labels than
values) raises `IndexError`. -/
theorem taskExecute_truncates_extra_values (t : Task) (a : Answers)
    (ret : List String) (rv : RawResult)
    (hret : t.returns = .static ret)
    (hfn : t.fn (t.args a) = .ok rv)
    (hlen : ret.length ≤ rv.detuple.length) :
    Task.execute t a = .ok (ret.zip rv.detuple) ∧
    (ret.zip rv.detuple).map Prod.fst = ret := by
  constructor
  · unfold Task.execute
    dsimp only
    rw [hfn, hret]
    exact zipReturns_ok_of_le _ _ hlen
  · exact List.map_fst_zip _ _ hlen

/-- Witness for C3 (amended): the two-value task with one output label. -/
theorem taskExecute_truncates_extra_values_witness :
    Task.execute twoValueTask [] =
      .ok (["a"].zip (RawResult.detuple (.tup [Value.num 1, Value.num 2]))) ∧
    (["a"].zip (RawResult.detuple (.tup [Value.num 1, Value.num 2]))).map Prod.fst =
      ["a"] :=
  taskExecute_truncates_extra_values twoValueTask [] ["a"]
    (.tup [Value.num 1, Value.num 2]) rfl rfl (by decide)

/-- C4 counterexample: `echoArgTask` late-binds the absent key
`"missing-key"`; `Task.execute` does not fail — the function is invoked with
`None` and its output mapping records that `None`. -/
theorem c4_counterexample :
    Task.execute echoArgTask [] = .ok [("echo", Value.none_)] :=
  rfl

/-- C4 (amended): a mandatory late-bound key absent from the answers at
execution time is bound to `None` by the `A` binder (`dict.get`), and the
underlying function is invoked with that `None`; no `MissingKeyError`-style
failure exists — whenever the function itself succeeds, so does
`Task.execute`. -/
theorem taskExecute_absent_key_binds_none (params : List String) (k : String)
    (i : Nat) (a : Answers) (fn : List Value → Except PyErr RawResult)
    (hk : params.get? i = some k) (habsent : lookupA a k = none)
    (hfn : ∀ vs, ∃ rv, fn vs = Except.ok rv) :
    (A params a).get? i = some Value.none_ ∧
    Task.execute { fn := fn, args := A params, returns := .static [] } a = .ok [] := by
  constructor
  · unfold A
    rw [List.get?_map, hk]
    simp [habsent]
  · obtain ⟨rv, hrv⟩ := hfn (A params a)
    unfold Task.execute
    simp only [hrv]
    rfl

/-- Witness for C4 (amended): the echoing task on an empty answers
dictionary. -/
theorem taskExecute_absent_key_binds_none_witness :
    (A ["missing-key"] []).get? 0 = some Value.none_ ∧
    Task.execute
        { fn := fun vs => .ok (.single (vs.headD Value.none_)),
          args := A ["missing-key"], returns := .static [] } [] = .ok [] :=
  taskExecute_absent_key_binds_none ["missing-key"] "missing-key" 0 []
    (fun vs => .ok (.single (vs.headD Value.none_))) rfl rfl
    (fun vs => ⟨.single (vs.headD Value.none_), rfl⟩)

/-! ## Claim theorems: the sequence executor -/

/-- C2 counterexample: two cleanup actions are registered in the order
`c1`, `c2` and a later task fails; the unwind invokes them in registration
order `c1, c2`, not in the claimed reverse order `c2, c1`. -/
theorem c2_counterexample :
    ((executeSequence [regCleanupTask "c1", regCleanupTask "c2", failingTask]
        "prep" [] Value.none_ false).trace).filterMap LogEvent.invokedTag =
      ["c1", "c2"] ∧
    (["c1", "c2"] : List String) ≠ ["c2", "c1"] :=
  ⟨rfl, by decide⟩

/-- C2 (amended): if the tasks before some failing task all succeed and that
task raises `e`, `executeSequence` runs `doCleanup` on exactly the cleanup
actions registered up to the failure (none registered later can appear),
invoking each exactly once in registration (forward) order — an action's own
failure is only logged, never stops the unwind — and re-raises the original
exception `e` unchanged. -/
theorem executeSequence_failure_unwind (ts₁ : List Task) (t : Task)
    (ts₂ : List Task) (seq_name : String) (answers a₁ : Answers) (ui : Value)
    (cleanup : Bool) (e : PyErr)
    (h1 : runTasks ts₁ (seqInit answers ui) = (a₁, none))
    (h2 : t.execute a₁ = .error e) :
    executeSequence (ts₁ ++ t :: ts₂) seq_name answers ui cleanup =
      { answers := a₁, trace := doCleanup (getCleanups a₁), raised := some e } ∧
    (doCleanup (getCleanups a₁)).filterMap LogEvent.invokedTag =
      (getCleanups a₁).map CleanupAction.tag := by
  have hrun : runTasks (ts₁ ++ t :: ts₂) (seqInit answers ui) = (a₁, some e) := by
    rw [runTasks_append, h1]
    simp [runTasks, h2]
  refine ⟨?_, doCleanup_invoked_tags _⟩
  cases ts₁ with
  | nil =>
    simp only [List.nil_append] at hrun ⊢
    simp [executeSequence, hrun]
  | cons x xs =>
    simp only [List.cons_append] at hrun ⊢
    simp [executeSequence, hrun]

/-- Witness for C2 (amended): the concrete two-registrations-then-failure
sequence. -/
theorem executeSequence_failure_unwind_witness :
    executeSequence ([regCleanupTask "c1", regCleanupTask "c2"] ++ failingTask :: [])
        "prep" [] Value.none_ false =
      { answers := [("cleanup",
            Value.cleanups [{ tag := "c1", fails := false }, { tag := "c2", fails := false }]),
          ("ui", Value.none_)],
        trace := doCleanup (getCleanups
          [("cleanup",
            Value.cleanups [{ tag := "c1", fails := false }, { tag := "c2", fails := false }]),
           ("ui", Value.none_)]),
        raised := some (PyErr.runtimeError "boom") } ∧
    (doCleanup (getCleanups
      [("cleanup",
        Value.cleanups [{ tag := "c1", fails := false }, { tag := "c2", fails := false }]),
       ("ui", Value.none_)])).filterMap LogEvent.invokedTag =
    (getCleanups
      [("cleanup",
        Value.cleanups [{ tag := "c1", fails := false }, { tag := "c2", fails := false }]),
       ("ui", Value.none_)]).map CleanupAction.tag :=
  executeSequence_failure_unwind [regCleanupTask "c1", regCleanupTask "c2"]
    failingTask [] "prep" []
    [("cleanup",
      Value.cleanups [{ tag := "c1", fails := false }, { tag := "c2", fails := false }]),
     ("ui", Value.none_)]
    Value.none_ false (PyErr.runtimeError "boom") rfl rfl

/-- C9: `executeSequence` starts by overwriting `'cleanup'` with a fresh
empty list and `'ui'` with the given ui object, before any task runs; hence
cleanup actions registered by an earlier phase (here `prior`) are discarded,
and a failure unwind in the new phase invokes none of them. -/
theorem executeSequence_resets_cleanup (answers : Answers) (ui : Value)
    (prior : List CleanupAction) (cl : Bool) (t : Task) (rest : List Task)
    (sn : String) (e : PyErr)
    (hprior : lookupA answers "cleanup" = some (Value.cleanups prior))
    (hfail : t.execute (seqInit answers ui) = .error e) :
    getCleanups (seqInit answers ui) = [] ∧
    lookupA (seqInit answers ui) "ui" = some ui ∧
    (executeSequence (t :: rest) sn answers ui cl).trace = [] := by
  refine ⟨getCleanups_seqInit answers ui, lookupA_setK_self _ _ _, ?_⟩
  have hrun : runTasks (t :: rest) (seqInit answers ui) = (seqInit answers ui, some e) := by
    simp [runTasks, hfail]
  simp [executeSequence, hrun, getCleanups_seqInit, doCleanup]

/-- Witness for C9: a prior phase left one cleanup action behind; the next
phase's immediately failing task triggers an empty unwind. -/
theorem executeSequence_resets_cleanup_witness :
    getCleanups (seqInit [("cleanup", Value.cleanups [{ tag := "old", fails := true }])]
      Value.none_) = [] ∧
    lookupA (seqInit [("cleanup", Value.cleanups [{ tag := "old", fails := true }])]
      Value.none_) "ui" = some Value.none_ ∧
    (executeSequence [failingTask] "final"
      [("cleanup", Value.cleanups [{ tag := "old", fails := true }])]
      Value.none_ true).trace = [] :=
  executeSequence_resets_cleanup
    [("cleanup", Value.cleanups [{ tag := "old", fails := true }])] Value.none_
    [{ tag := "old", fails := true }] true failingTask [] "final"
    (PyErr.runtimeError "boom") rfl rfl

/-- C10: when a task succeeds, the executor continues with exactly the task's
output mapping merged into the answers; a key not named in the mapping keeps
its previous value, and an empty mapping leaves the answers unchanged. -/
theorem runTasks_merge_frame (t : Task) (ts : List Task) (a : Answers)
    (out : List (String × Value)) (k : String)
    (h : t.execute a = .ok out) (hk : k ∉ out.map Prod.fst) :
    runTasks (t :: ts) a = runTasks ts (mergeOutputs a out) ∧
    lookupA (mergeOutputs a out) k = lookupA a k ∧
    mergeOutputs a [] = a := by
  refine ⟨?_, lookupA_mergeOutputs_not_mem a out k hk, rfl⟩
  simp [runTasks, h]

/-! ## Claim theorems: the committer -/

theorem createDom0Layout_ops (policy : SizePolicy) (disk : DiskState)
    (boot_partnum primary_partnum backup_partnum logs_partnum swap_partnum
      storage_partnum : Int)
    (hb : 0 < backup_partnum) (hs : 0 < storage_partnum) :
    (createDom0Layout policy disk boot_partnum primary_partnum backup_partnum
        logs_partnum swap_partnum storage_partnum).ops =
      (disk.partitions.filterMap (fun p =>
        if primary_partnum ≤ p.1 then some (DiskOp.delete p.1) else none)) ++
      [DiskOp.create .linux (some (policy.logs_size * 2 ^ 20)) logs_partnum
         (if primary_partnum = 1 then some (2 ^ 20) else none) logspart_label,
       DiskOp.create .linux (some (policy.backup_size * 2 ^ 20)) backup_partnum
         none backuppart_label,
       DiskOp.create .linux (some (policy.root_size * 2 ^ 20)) primary_partnum
         none rootpart_label,
       DiskOp.create .efiBoot (some (policy.boot_size * 2 ^ 20)) boot_partnum
         none bootpart_label,
       DiskOp.create .linuxSwap (some (policy.swap_size * 2 ^ 20)) swap_partnum
         none swappart_label,
       DiskOp.create .linuxLVM none storage_partnum none storagepart_label] := by
  by_cases hp : primary_partnum = 1 <;>
    simp [createDom0Layout, createPartition, hb, hs, hp, List.append_assoc]

theorem createDom0Layout_lookup_primary (policy : SizePolicy) (disk : DiskState)
    (boot_partnum primary_partnum backup_partnum logs_partnum swap_partnum
      storage_partnum : Int)
    (hb : 0 < backup_partnum) (hs : 0 < storage_partnum) :
    (lookupCreated (createDom0Layout policy disk boot_partnum primary_partnum
        backup_partnum logs_partnum swap_partnum storage_partnum)
      primary_partnum).isSome := by
  unfold createDom0Layout
  by_cases hp : primary_partnum = 1 <;>
    simp only [hb, hs, hp, if_true, ite_true, ite_false, if_false] <;>
    first
      | (apply isSome_lookupCreated_createPartition_of
         apply isSome_lookupCreated_createPartition_of
         apply isSome_lookupCreated_createPartition_of
         apply isSome_lookupCreated_createPartition_self)

theorem createDom0Layout_lookup_backup (policy : SizePolicy) (disk : DiskState)
    (boot_partnum primary_partnum backup_partnum logs_partnum swap_partnum
      storage_partnum : Int)
    (hb : 0 < backup_partnum) (hs : 0 < storage_partnum) :
    (lookupCreated (createDom0Layout policy disk boot_partnum primary_partnum
        backup_partnum logs_partnum swap_partnum storage_partnum)
      backup_partnum).isSome := by
  unfold createDom0Layout
  by_cases hp : primary_partnum = 1 <;>
    simp only [hb, hs, hp, if_true, ite_true, ite_false, if_false] <;>
    first
      | (apply isSome_lookupCreated_createPartition_of
         apply isSome_lookupCreated_createPartition_of
         apply isSome_lookupCreated_createPartition_of
         apply isSome_lookupCreated_createPartition_of
         apply isSome_lookupCreated_createPartition_self)

theorem createDom0Layout_lookup_storage (policy : SizePolicy) (disk : DiskState)
    (boot_partnum primary_partnum backup_partnum logs_partnum swap_partnum
      storage_partnum : Int)
    (hb : 0 < backup_partnum) (hs : 0 < storage_partnum) :
    (lookupCreated (createDom0Layout policy disk boot_partnum primary_partnum
        backup_partnum logs_partnum swap_partnum storage_partnum)
      storage_partnum).isSome := by
  unfold createDom0Layout
  by_cases hp : primary_partnum = 1 <;>
    simp only [hb, hs, hp, if_true, ite_true, ite_false, if_false] <;>
    apply isSome_lookupCreated_createPartition_self

/-- C8: on an existing, large-enough disk (with a planned backup and storage
partition), the committer's operation trace deletes exactly the existing
partitions numbered at or above the planned root (never a lower-numbered
preserved partition), then creates the new partitions in the physical order
logs, backup, root, boot, swap, storage, only the storage partition without
an explicit size; the trace ends in a single table commit, preceded (only
when `sr_at_end` is false) by reorder operations whose deletions touch only
the root/backup/storage trio. -/
theorem writeDom0DiskPartitions_trace (policy : SizePolicy) (disk : DiskState)
    (boot_partnum primary_partnum backup_partnum logs_partnum swap_partnum
      storage_partnum : Int) (sr_at_end : Bool)
    (hname : disk.name.take 5 = ['/', 'd', 'e', 'v', '/'])
    (hpresent : disk.present = true)
    (hsize : policy.min_primary_disk_size ≤ disk.sizeBytes / 2 ^ 30)
    (hb : 0 < backup_partnum) (hs : 0 < storage_partnum) :
    ∃ reorderOps,
      writeDom0DiskPartitions policy disk boot_partnum primary_partnum
          backup_partnum logs_partnum swap_partnum storage_partnum sr_at_end =
        .ok ((disk.partitions.filterMap (fun p =>
                if primary_partnum ≤ p.1 then some (DiskOp.delete p.1) else none)) ++
             [DiskOp.create .linux (some (policy.logs_size * 2 ^ 20)) logs_partnum
                (if primary_partnum = 1 then some (2 ^ 20) else none) logspart_label,
              DiskOp.create .linux (some (policy.backup_size * 2 ^ 20)) backup_partnum
                none backuppart_label,
              DiskOp.create .linux (some (policy.root_size * 2 ^ 20)) primary_partnum
                none rootpart_label,
              DiskOp.create .efiBoot (some (policy.boot_size * 2 ^ 20)) boot_partnum
                none bootpart_label,
              DiskOp.create .linuxSwap (some (policy.swap_size * 2 ^ 20)) swap_partnum
                none swappart_label,
              DiskOp.create .linuxLVM none storage_partnum none storagepart_label] ++
             reorderOps ++ [DiskOp.commit]) ∧
      (sr_at_end = true → reorderOps = []) ∧
      (∀ n, DiskOp.delete n ∈ reorderOps →
        n = primary_partnum ∨ n = backup_partnum ∨ n = storage_partnum) := by
  have hlt : ¬ disk.sizeBytes / 2 ^ 30 < policy.min_primary_disk_size :=
    Nat.not_lt.mpr hsize
  have hops := createDom0Layout_ops policy disk boot_partnum primary_partnum
    backup_partnum logs_partnum swap_partnum storage_partnum hb hs
  cases sr_at_end with
  | true =>
    refine ⟨[], ?_, fun _ => rfl, by simp⟩
    simp only [writeDom0DiskPartitions, hname, hpresent, hlt, if_true,
      ite_true, ite_false, if_false]
    rw [hops]
    simp [List.append_assoc]
  | false =>
    obtain ⟨ro, hro, hdel⟩ := reorderOpsFor_spec
      (createDom0Layout policy disk boot_partnum primary_partnum backup_partnum
        logs_partnum swap_partnum storage_partnum)
      primary_partnum backup_partnum storage_partnum
      (createDom0Layout_lookup_primary policy disk boot_partnum primary_partnum
        backup_partnum logs_partnum swap_partnum storage_partnum hb hs)
      (createDom0Layout_lookup_storage policy disk boot_partnum primary_partnum
        backup_partnum logs_partnum swap_partnum storage_partnum hb hs)
      (fun _ => createDom0Layout_lookup_backup policy disk boot_partnum
        primary_partnum backup_partnum logs_partnum swap_partnum storage_partnum
        hb hs)
    refine ⟨ro, ?_, by simp, hdel⟩
    simp only [writeDom0DiskPartitions, hname, hpresent, hlt, if_true,
      ite_true, ite_false, if_false]
    rw [hro]
    simp only [Except.map]
    rw [hops]
    simp [List.append_assoc]

/-- Witness for C8: a concrete fresh-install run with `sr_at_end = true`. -/
theorem writeDom0DiskPartitions_trace_witness :
    ∃ reorderOps,
      writeDom0DiskPartitions witnessPolicy witnessDisk 4 1 2 5 6 3 true =
        .ok ((witnessDisk.partitions.filterMap (fun p =>
                if (1 : Int) ≤ p.1 then some (DiskOp.delete p.1) else none)) ++
             [DiskOp.create .linux (some (witnessPolicy.logs_size * 2 ^ 20)) 5
                (if (1 : Int) = 1 then some (2 ^ 20) else none) logspart_label,
              DiskOp.create .linux (some (witnessPolicy.backup_size * 2 ^ 20)) 2
                none backuppart_label,
              DiskOp.create .linux (some (witnessPolicy.root_size * 2 ^ 20)) 1
                none rootpart_label,
              DiskOp.create .efiBoot (some (witnessPolicy.boot_size * 2 ^ 20)) 4
                none bootpart_label,
              DiskOp.create .linuxSwap (some (witnessPolicy.swap_size * 2 ^ 20)) 6
                none swappart_label,
              DiskOp.create .linuxLVM none 3 none storagepart_label] ++
             reorderOps ++ [DiskOp.commit]) ∧
      (true = true → reorderOps = []) ∧
      (∀ n, DiskOp.delete n ∈ reorderOps → n = 1 ∨ n = 2 ∨ n = 3) :=
  writeDom0DiskPartitions_trace witnessPolicy witnessDisk 4 1 2 5 6 3 true
    (by decide) rfl (by norm_num [witnessPolicy, witnessDisk]) (by decide) (by decide)

/-- Witness for C10: a one-output task leaves an unrelated key untouched. -/
theorem runTasks_merge_frame_witness :
    runTasks [outTask] [("y", Value.num 0)] =
      runTasks [] (mergeOutputs [("y", Value.num 0)] [("x", Value.num 7)]) ∧
    lookupA (mergeOutputs [("y", Value.num 0)] [("x", Value.num 7)]) "y" =
      lookupA [("y", Value.num 0)] "y" ∧
    mergeOutputs [("y", Value.num 0)] [] = [("y", Value.num 0)] :=
  runTasks_merge_frame outTask [] [("y", Value.num 0)] [("x", Value.num 7)] "y"
    rfl (by decide)

end HostInstaller
